import Mathlib

/-!
Verification of the region-location and image-geometry pipeline of
`sukusho_summary.py`: margin validation in `BaseFinder.__init__`, the
scroll-target computation in `_scroll_to_element`, the crop-rectangle
computation in `_determine_crop_area`, sentinel resolution and cropping in
`_take_screenshot`, error classification in `_find_element`, and the
try/finally teardown discipline of `browse_site`.

Numeric model: page coordinates, scroll offsets, zoom and device pixel ratio
are rationals (the Python code mixes ints and floats; the claims under study
are algebraic, so exact arithmetic is the faithful reading).  Margins are
integers, as in the constructor signature.
-/

/-- The four margins stored by `BaseFinder.__init__` (lines 32-41).
Python ints; validation happens in `mkBaseFinder` below. -/
structure Margins where
  margin_top : Int
  margin_left : Int
  margin_right : Int
  margin_bottom : Int
deriving DecidableEq

/-- `BaseFinder.__init__`: raises `ValueError` when any margin is negative,
otherwise stores the four margins unchanged (source lines 32-41). -/
def mkBaseFinder (margin_top margin_left margin_right margin_bottom : Int) :
    Except String Margins :=
  if margin_top < 0 ∨ margin_left < 0 ∨ margin_right < 0 ∨ margin_bottom < 0 then
    Except.error "Margins must be non-negative"
  else
    Except.ok ⟨margin_top, margin_left, margin_right, margin_bottom⟩

/-- An element bounding box: `element.location` x/y and `element.size`
width/height. -/
structure Box where
  x : ℚ
  y : ℚ
  width : ℚ
  height : ℚ
deriving DecidableEq

/-- The scroll-target computation of `_scroll_to_element` (source lines
222-223).  `x_offset`/`y_offset` are `window.pageXOffset`/`pageYOffset` read
before scrolling.  The device pixel ratio is read by the surrounding method
but does not enter this computation, hence it is not a parameter. -/
def scrollTarget (box : Box) (x_offset y_offset : ℚ) (finder : Margins)
    (zoom : ℚ) : ℚ × ℚ :=
  (max 0 ((box.x - x_offset - (finder.margin_left : ℚ)) * zoom),
   max 0 ((box.y - y_offset - (finder.margin_top : ℚ)) * zoom))

/-- The crop rectangle returned by `_determine_crop_area`, in the source's
tuple order `(left, top, right, bottom)` (line 264). -/
structure CropArea where
  left : ℚ
  top : ℚ
  right : ℚ
  bottom : ℚ
deriving DecidableEq

/-- `_determine_crop_area` (source lines 231-264).  Returns `none` when the
element is absent or all four margins are zero (Python truthiness of the
int margins: a margin tests true exactly when it is nonzero).  Each edge is
computed independently; `right`/`bottom` are left at the sentinel `0` when
their margin is zero, and are not clamped at 0 when computed. -/
def determine_crop_area (element : Option Box) (x_offset y_offset : ℚ)
    (finder : Margins) (zoom dpr : ℚ) : Option CropArea :=
  match element with
  | none => none
  | some box =>
    if finder.margin_top = 0 ∧ finder.margin_left = 0 ∧
        finder.margin_right = 0 ∧ finder.margin_bottom = 0 then
      none
    else
      some
        { left := if finder.margin_left ≠ 0 then
            max 0 ((box.x - x_offset - (finder.margin_left : ℚ)) * zoom * dpr) else 0,
          top := if finder.margin_top ≠ 0 then
            max 0 ((box.y - y_offset - (finder.margin_top : ℚ)) * zoom * dpr) else 0,
          right := if finder.margin_right ≠ 0 then
            (box.x - x_offset + box.width + (finder.margin_right : ℚ)) * zoom * dpr else 0,
          bottom := if finder.margin_bottom ≠ 0 then
            (box.y - y_offset + box.height + (finder.margin_bottom : ℚ)) * zoom * dpr else 0 }

/-- The image saved by `_take_screenshot`: either the full screenshot, or the
screenshot cropped to the given resolved rectangle. -/
inductive SavedImage where
  | full
  | cropped (c : CropArea)
deriving DecidableEq

/-- Sentinel resolution inside `_take_screenshot` (source lines 271-273):
`right = crop_area[2] or img.width`, `bottom = crop_area[3] or img.height`.
Python `or` keeps the left operand exactly when it is nonzero (negative
values included); only an exact 0 falls through to the image edge. -/
def resolveCrop (c : CropArea) (imgWidth imgHeight : ℚ) : CropArea :=
  { left := c.left,
    top := c.top,
    right := if c.right ≠ 0 then c.right else imgWidth,
    bottom := if c.bottom ≠ 0 then c.bottom else imgHeight }

/-- `_take_screenshot` (source lines 266-278): with no crop area the full
screenshot is saved; otherwise the image is cropped to the resolved
rectangle. -/
def take_screenshot (crop_area : Option CropArea) (imgWidth imgHeight : ℚ) :
    SavedImage :=
  match crop_area with
  | none => SavedImage.full
  | some c => SavedImage.cropped (resolveCrop c imgWidth imgHeight)

/-- Outcome of the underlying Selenium lookup performed by
`finder.find_element(driver)`: an element, a `NoSuchElementException`, or any
other driver exception. -/
inductive DriverLookup where
  | found (b : Box)
  | noSuchElement
  | driverFailure (e : String)
deriving DecidableEq

/-- Errors escaping `_find_element`: the repository's own
`ElementNotFoundError`, or an unchanged driver exception. -/
inductive FindError where
  | elementNotFound (msg : String)
  | other (e : String)
deriving DecidableEq

/-- `_find_element` (source lines 200-204): catches exactly
`NoSuchElementException` and re-raises it as `ElementNotFoundError` with a
message naming the finder; every other exception propagates unchanged. -/
def find_element (lookup : DriverLookup) (finderRepr : String) :
    Except FindError Box :=
  match lookup with
  | DriverLookup.found b => Except.ok b
  | DriverLookup.noSuchElement =>
      Except.error (FindError.elementNotFound
        ("指定された要素は見つかりませんでした。: finder=" ++ finderRepr))
  | DriverLookup.driverFailure e => Except.error (FindError.other e)

/-- Sequential execution of the pipeline stages inside the `try` block of
`browse_site`: stop at the first stage that raises. -/
def runStages : List (Except String Unit) → Except String Unit
  | [] => Except.ok ()
  | s :: rest =>
    match s with
    | Except.ok _ => runStages rest
    | Except.error e => Except.error e

/-- Result of one `browse_site` invocation together with the number of times
`driver.quit()` has been called. -/
structure BrowseOutcome where
  result : Except String String
  quitCalls : Nat

/-- `browse_site` (source lines 143-166): the try/finally shape.  The stages
(navigation, zoom script, scroll/locate, geometry, capture, summarization)
are abstracted as a list of fallible steps; `summary` is the value returned
when every stage succeeds.  The `finally` clause calls `driver.quit()` once,
whether the body returned or raised, and the body's outcome is then returned
or re-raised unchanged (there is no `except` clause). -/
def browse_site (stages : List (Except String Unit)) (summary : String)
    (quitCalls : Nat) : BrowseOutcome :=
  match runStages stages with
  | Except.ok _ => { result := Except.ok summary, quitCalls := quitCalls + 1 }
  | Except.error e => { result := Except.error e, quitCalls := quitCalls + 1 }

/-- For a validated margin (nonnegative), Python truthiness (nonzero) is
positivity. -/
theorem ne_zero_iff_pos_of_nonneg {n : Int} (h : 0 ≤ n) : n ≠ 0 ↔ 0 < n :=
  ⟨fun hne => h.lt_of_ne (Ne.symm hne), fun hp => hp.ne'⟩

/-- Scaling by 2 commutes with clamping at 0 on the rationals. -/
theorem two_mul_max_zero (y : ℚ) : max 0 (2 * y) = 2 * max 0 y := by
  rw [mul_max_of_nonneg 0 y (by norm_num : (0:ℚ) ≤ 2), mul_zero]

/-- C2: the scroll target of `_scroll_to_element` equals
`(max 0 ((box.x - x_offset - margin_left) * zoom),
  max 0 ((box.y - y_offset - margin_top) * zoom))`, neither coordinate is
ever negative, and the device pixel ratio does not enter the computation
(the right-hand side — and `scrollTarget` itself — has no dpr argument). -/
theorem scroll_target_formula (box : Box) (x_offset y_offset : ℚ)
    (m : Margins) (zoom : ℚ) :
    scrollTarget box x_offset y_offset m zoom =
      (max 0 ((box.x - x_offset - (m.margin_left : ℚ)) * zoom),
       max 0 ((box.y - y_offset - (m.margin_top : ℚ)) * zoom)) ∧
    0 ≤ (scrollTarget box x_offset y_offset m zoom).1 ∧
    0 ≤ (scrollTarget box x_offset y_offset m zoom).2 :=
  ⟨rfl, le_max_left 0 _, le_max_left 0 _⟩

/-- C3: with all four margins zero, or with no located element,
`_determine_crop_area` returns `none`, and `_take_screenshot` then saves the
full captured image without cropping. -/
theorem zero_margins_no_crop (box : Box) (x_offset y_offset zoom dpr w h : ℚ)
    (m : Margins) :
    determine_crop_area (some box) x_offset y_offset ⟨0, 0, 0, 0⟩ zoom dpr = none ∧
    determine_crop_area none x_offset y_offset m zoom dpr = none ∧
    take_screenshot none w h = SavedImage.full ∧
    take_screenshot
      (determine_crop_area (some box) x_offset y_offset ⟨0, 0, 0, 0⟩ zoom dpr)
      w h = SavedImage.full := by
  refine ⟨?_, rfl, rfl, ?_⟩ <;> simp [determine_crop_area, take_screenshot]

/-- C9 counterexample: with all margins zero, box = (x 100, y 200, w 50,
h 20), offsets (0, 0) and zoom 1, the code's scroll target is (100, 200),
not `(max 0 (-x_offset * zoom), max 0 (-y_offset * zoom)) = (0, 0)` as the
claim states. -/
theorem scroll_zero_margins_counterexample :
    scrollTarget ⟨100, 200, 50, 20⟩ 0 0 ⟨0, 0, 0, 0⟩ 1 ≠
      (max 0 (-(0 : ℚ) * 1), max 0 (-(0 : ℚ) * 1)) := by
  have h : scrollTarget ⟨100, 200, 50, 20⟩ 0 0 ⟨0, 0, 0, 0⟩ 1 = (100, 200) := by
    simp only [scrollTarget]
    norm_num
  rw [h]
  norm_num [Prod.ext_iff]

/-- C9 amended: when the locator matches and all four margins are zero, the
crop rectangle is absent and the scroll step is still performed, but its
target is `(max 0 ((box.x - x_offset) * zoom), max 0 ((box.y - y_offset) * zoom))`
— the element coordinates are not dropped from the formula. -/
theorem scroll_zero_margins_amended (box : Box)
    (x_offset y_offset zoom dpr : ℚ) :
    scrollTarget box x_offset y_offset ⟨0, 0, 0, 0⟩ zoom =
      (max 0 ((box.x - x_offset) * zoom), max 0 ((box.y - y_offset) * zoom)) ∧
    determine_crop_area (some box) x_offset y_offset ⟨0, 0, 0, 0⟩ zoom dpr =
      none := by
  constructor
  · simp [scrollTarget]
  · simp [determine_crop_area]

/-- C10: the computed right and bottom edges are never clamped at 0.  At
box = (x 0, y 0, w 10, h 10), offsets (100, 100), margins
(top 0, left 5, right 5, bottom 5), zoom 1, dpr 1, the computed crop area is
(left 0, top 0, right -85, bottom -85): `margin_right` is positive yet the
right edge is strictly negative, and at crop time the nonzero negative value
is kept (only an exact 0 selects the image edge), so the crop operation
receives a rectangle with right < left. -/
theorem negative_right_not_clamped :
    (0 : Int) < (⟨0, 5, 5, 5⟩ : Margins).margin_right ∧
    determine_crop_area (some ⟨0, 0, 10, 10⟩) 100 100 ⟨0, 5, 5, 5⟩ 1 1 =
      some ⟨0, 0, -85, -85⟩ ∧
    (-85 : ℚ) < 0 ∧
    take_screenshot
      (determine_crop_area (some ⟨0, 0, 10, 10⟩) 100 100 ⟨0, 5, 5, 5⟩ 1 1)
      1920 1080 = SavedImage.cropped ⟨0, 0, -85, -85⟩ ∧
    (⟨0, 0, -85, -85⟩ : CropArea).right < (⟨0, 0, -85, -85⟩ : CropArea).left := by
  refine ⟨by decide, ?_, by norm_num, ?_, by norm_num⟩
  · norm_num [determine_crop_area, max_eq_left]
  · norm_num [determine_crop_area, take_screenshot, resolveCrop, max_eq_left]

/-- C1: for a located element and validated (nonnegative) margins that are
not all zero, `_determine_crop_area` returns exactly the rectangle with
top = max(0, (box.y - y_offset - margin_top) * zoom * dpr) when
margin_top > 0 and 0 otherwise, left symmetric with margin_left and box.x,
right = (box.x - x_offset + box.width + margin_right) * zoom * dpr when
margin_right > 0 and the sentinel 0 otherwise, and bottom symmetric with
margin_bottom, box.height and box.y. -/
theorem crop_area_formula (box : Box) (x_offset y_offset : ℚ) (m : Margins)
    (zoom dpr : ℚ)
    (ht : 0 ≤ m.margin_top) (hl : 0 ≤ m.margin_left)
    (hr : 0 ≤ m.margin_right) (hb : 0 ≤ m.margin_bottom)
    (hnz : ¬(m.margin_top = 0 ∧ m.margin_left = 0 ∧
        m.margin_right = 0 ∧ m.margin_bottom = 0)) :
    determine_crop_area (some box) x_offset y_offset m zoom dpr = some
      { left := if 0 < m.margin_left then
          max 0 ((box.x - x_offset - (m.margin_left : ℚ)) * zoom * dpr) else 0,
        top := if 0 < m.margin_top then
          max 0 ((box.y - y_offset - (m.margin_top : ℚ)) * zoom * dpr) else 0,
        right := if 0 < m.margin_right then
          (box.x - x_offset + box.width + (m.margin_right : ℚ)) * zoom * dpr else 0,
        bottom := if 0 < m.margin_bottom then
          (box.y - y_offset + box.height + (m.margin_bottom : ℚ)) * zoom * dpr else 0 } := by
  simp only [determine_crop_area]
  rw [if_neg hnz]
  simp only [ne_zero_iff_pos_of_nonneg ht, ne_zero_iff_pos_of_nonneg hl,
    ne_zero_iff_pos_of_nonneg hr, ne_zero_iff_pos_of_nonneg hb]

/-- C1 witness: scenario of the spec (box (100, 200, 50, 20), offsets (0, 0),
margins (top 1, left 20, right 20, bottom 120), zoom 1, dpr 1) gives the
crop rectangle (left 80, top 199, right 170, bottom 340). -/
theorem crop_area_formula_witness :
    determine_crop_area (some ⟨100, 200, 50, 20⟩) 0 0 ⟨1, 20, 20, 120⟩ 1 1 =
      some ⟨80, 199, 170, 340⟩ := by
  rw [crop_area_formula ⟨100, 200, 50, 20⟩ 0 0 ⟨1, 20, 20, 120⟩ 1 1
    (by decide) (by decide) (by decide) (by decide) (by decide)]
  norm_num [max_eq_right]

/-- C7: `BaseFinder.__init__` succeeds on every all-nonnegative margin tuple
and stores exactly the given values; it raises on every tuple containing a
negative margin.  The check is pure validation on the arguments — no browser
interaction is involved (the constructor touches no driver). -/
theorem margins_validation (mt ml mr mb : Int) :
    (0 ≤ mt → 0 ≤ ml → 0 ≤ mr → 0 ≤ mb →
      mkBaseFinder mt ml mr mb = Except.ok ⟨mt, ml, mr, mb⟩) ∧
    ((mt < 0 ∨ ml < 0 ∨ mr < 0 ∨ mb < 0) →
      mkBaseFinder mt ml mr mb = Except.error "Margins must be non-negative") := by
  constructor
  · intro h1 h2 h3 h4
    have h : ¬(mt < 0 ∨ ml < 0 ∨ mr < 0 ∨ mb < 0) := by
      push_neg
      exact ⟨h1, h2, h3, h4⟩
    rw [mkBaseFinder, if_neg h]
  · intro h
    rw [mkBaseFinder, if_pos h]

/-- C7 witness: margins (1, 20, 20, 120) are accepted and stored unchanged;
margins (0, 0, -1, 0) are rejected. -/
theorem margins_validation_witness :
    mkBaseFinder 1 20 20 120 = Except.ok ⟨1, 20, 20, 120⟩ ∧
    mkBaseFinder 0 0 (-1) 0 = Except.error "Margins must be non-negative" :=
  ⟨(margins_validation 1 20 20 120).1 (by decide) (by decide) (by decide) (by decide),
   (margins_validation 0 0 (-1) 0).2 (by decide)⟩

/-- C4: when margin_right = 0 but margin_left > 0, `_determine_crop_area`
produces a rectangle whose right edge is the sentinel 0 regardless of the
box geometry, and `_take_screenshot` resolves that edge to the captured
image's actual width at crop time; symmetrically, when margin_bottom = 0 the
bottom edge resolves to the image's height. -/
theorem sentinel_right_resolves (box : Box) (x_offset y_offset zoom dpr w h : ℚ)
    (m : Margins) (hr : m.margin_right = 0) (hl : 0 < m.margin_left) :
    ∃ c : CropArea,
      determine_crop_area (some box) x_offset y_offset m zoom dpr = some c ∧
      c.right = 0 ∧
      (resolveCrop c w h).right = w ∧
      (m.margin_bottom = 0 → (resolveCrop c w h).bottom = h) ∧
      take_screenshot (some c) w h = SavedImage.cropped (resolveCrop c w h) := by
  have hnz : ¬(m.margin_top = 0 ∧ m.margin_left = 0 ∧
      m.margin_right = 0 ∧ m.margin_bottom = 0) := by
    rintro ⟨-, h2, -, -⟩
    exact absurd h2 hl.ne'
  refine ⟨⟨if m.margin_left ≠ 0 then
      max 0 ((box.x - x_offset - (m.margin_left : ℚ)) * zoom * dpr) else 0,
    if m.margin_top ≠ 0 then
      max 0 ((box.y - y_offset - (m.margin_top : ℚ)) * zoom * dpr) else 0,
    if m.margin_right ≠ 0 then
      (box.x - x_offset + box.width + (m.margin_right : ℚ)) * zoom * dpr else 0,
    if m.margin_bottom ≠ 0 then
      (box.y - y_offset + box.height + (m.margin_bottom : ℚ)) * zoom * dpr else 0⟩,
    ?_, ?_, ?_, ?_, rfl⟩
  · simp only [determine_crop_area]
    rw [if_neg hnz]
  · simp [hr]
  · simp [resolveCrop, hr]
  · intro hb
    simp [resolveCrop, hb]

/-- C4 witness: box (100, 200, 50, 20), offsets (0, 0), margins
(top 0, left 20, right 0, bottom 0), zoom 1, dpr 1, image 1920 x 1080: the
produced rectangle has sentinel right edge 0, which resolves to width 1920
(and bottom to height 1080) at crop time. -/
theorem sentinel_right_resolves_witness :
    ∃ c : CropArea,
      determine_crop_area (some ⟨100, 200, 50, 20⟩) 0 0 ⟨0, 20, 0, 0⟩ 1 1 =
        some c ∧
      c.right = 0 ∧
      (resolveCrop c 1920 1080).right = 1920 ∧
      ((⟨0, 20, 0, 0⟩ : Margins).margin_bottom = 0 →
        (resolveCrop c 1920 1080).bottom = 1080) ∧
      take_screenshot (some c) 1920 1080 =
        SavedImage.cropped (resolveCrop c 1920 1080) :=
  sentinel_right_resolves ⟨100, 200, 50, 20⟩ 0 0 1 1 1920 1080 ⟨0, 20, 0, 0⟩
    rfl (by decide)

/-- C5: `browse_site` runs its stages in sequence inside try/finally; on
every exit path — all stages succeed, or any stage raises — `driver.quit()`
is called exactly once (the quit counter increases by exactly one), and the
body's outcome is then returned or re-raised unchanged: success yields the
summary, and the first raised error propagates without being swallowed. -/
theorem browse_site_teardown (stages : List (Except String Unit))
    (summary : String) (q : Nat) :
    (browse_site stages summary q).quitCalls = q + 1 ∧
    (runStages stages = Except.ok () →
      (browse_site stages summary q).result = Except.ok summary) ∧
    (∀ e, runStages stages = Except.error e →
      (browse_site stages summary q).result = Except.error e) := by
  refine ⟨?_, ?_, ?_⟩ <;> cases hrs : runStages stages <;>
    simp [browse_site, hrs]

/-- C5 witness: with the locating stage raising "no element" after a
successful navigation stage, the quit counter goes from 0 to 1 and the
error is re-raised unchanged. -/
theorem browse_site_teardown_witness :
    (browse_site [Except.ok (), Except.error "no element"] "summary" 0).quitCalls = 1 ∧
    (browse_site [Except.ok (), Except.error "no element"] "summary" 0).result =
      Except.error "no element" :=
  ⟨(browse_site_teardown [Except.ok (), Except.error "no element"] "summary" 0).1,
   (browse_site_teardown [Except.ok (), Except.error "no element"] "summary" 0).2.2
     "no element" rfl⟩

/-- C6: `_find_element` fails with `ElementNotFoundError` exactly when the
underlying driver lookup reports not-found (`NoSuchElementException`); a
found element is returned as-is, and every other driver failure propagates
unchanged. -/
theorem find_element_classification (f : String) (b : Box) (e : String) :
    find_element (DriverLookup.found b) f = Except.ok b ∧
    find_element DriverLookup.noSuchElement f =
      Except.error (FindError.elementNotFound
        ("指定された要素は見つかりませんでした。: finder=" ++ f)) ∧
    find_element (DriverLookup.driverFailure e) f =
      Except.error (FindError.other e) ∧
    (∀ lookup : DriverLookup,
      (∃ msg, find_element lookup f =
          Except.error (FindError.elementNotFound msg)) ↔
        lookup = DriverLookup.noSuchElement) := by
  refine ⟨rfl, rfl, rfl, ?_⟩
  intro lookup
  cases lookup <;> simp [find_element]

/-- C6 witness: concrete instances of the classification — not-found maps to
`ElementNotFoundError`, a driver failure "timeout" propagates unchanged. -/
theorem find_element_classification_witness :
    find_element DriverLookup.noSuchElement "StringFinder" =
      Except.error (FindError.elementNotFound
        ("指定された要素は見つかりませんでした。: finder=" ++ "StringFinder")) ∧
    find_element (DriverLookup.driverFailure "timeout") "StringFinder" =
      Except.error (FindError.other "timeout") :=
  ⟨(find_element_classification "StringFinder" ⟨0, 0, 0, 0⟩ "timeout").2.1,
   (find_element_classification "StringFinder" ⟨0, 0, 0, 0⟩ "timeout").2.2.1⟩

/-- C8: the crop-rectangle computation is linear in zoom and in dpr:
doubling either factor exactly doubles all four computed edges (the clamped
top/left edges double because scaling by the positive factor 2 commutes
with max 0; the sentinel 0 edges stay 0 = 2 * 0). -/
theorem crop_area_linear (element : Option Box) (x_offset y_offset : ℚ)
    (m : Margins) (zoom dpr : ℚ) :
    determine_crop_area element x_offset y_offset m (2 * zoom) dpr =
      Option.map (fun c : CropArea =>
          ⟨2 * c.left, 2 * c.top, 2 * c.right, 2 * c.bottom⟩)
        (determine_crop_area element x_offset y_offset m zoom dpr) ∧
    determine_crop_area element x_offset y_offset m zoom (2 * dpr) =
      Option.map (fun c : CropArea =>
          ⟨2 * c.left, 2 * c.top, 2 * c.right, 2 * c.bottom⟩)
        (determine_crop_area element x_offset y_offset m zoom dpr) := by
  cases element with
  | none => exact ⟨rfl, rfl⟩
  | some box =>
    constructor <;>
    · simp only [determine_crop_area]
      by_cases hz : (m.margin_top = 0 ∧ m.margin_left = 0 ∧
          m.margin_right = 0 ∧ m.margin_bottom = 0)
      · rw [if_pos hz, if_pos hz]
        rfl
      · rw [if_neg hz, if_neg hz]
        simp only [Option.map_some', Option.some.injEq, CropArea.mk.injEq]
        refine ⟨?_, ?_, ?_, ?_⟩ <;>
          [by_cases h : m.margin_left ≠ 0;
           by_cases h : m.margin_top ≠ 0;
           by_cases h : m.margin_right ≠ 0;
           by_cases h : m.margin_bottom ≠ 0] <;>
          simp only [if_pos h, if_neg h, mul_zero] <;>
          first
          | ring1
          | (rw [show (box.x - x_offset - (m.margin_left : ℚ)) * (2 * zoom) * dpr =
                2 * ((box.x - x_offset - (m.margin_left : ℚ)) * zoom * dpr) by ring,
              two_mul_max_zero])
          | (rw [show (box.y - y_offset - (m.margin_top : ℚ)) * (2 * zoom) * dpr =
                2 * ((box.y - y_offset - (m.margin_top : ℚ)) * zoom * dpr) by ring,
              two_mul_max_zero])
          | (rw [show (box.x - x_offset - (m.margin_left : ℚ)) * zoom * (2 * dpr) =
                2 * ((box.x - x_offset - (m.margin_left : ℚ)) * zoom * dpr) by ring,
              two_mul_max_zero])
          | (rw [show (box.y - y_offset - (m.margin_top : ℚ)) * zoom * (2 * dpr) =
                2 * ((box.y - y_offset - (m.margin_top : ℚ)) * zoom * dpr) by ring,
              two_mul_max_zero])
